import Mathlib

/-!
Verification of the `orm_json` serialization shim (src/orm_json/__init__.py).

The module is Python 2 code (it references `basestring` at line 11).  We give
a shallow embedding of its value universe, the relevant builtins
(`type`, `isinstance`, `str`, dict insert/lookup, `re.sub` for the one fixed
pattern used), and the `Converter` class, then settle the spec claims.

A central point of the embedding: line 11 builds `JSON_SAFE_TYPES` as a
`set`, and line 44 passes that set as the second argument of `isinstance`.
Python's `isinstance` requires a class or a tuple of classes there; any
other classinfo raises `TypeError`.  The embedding models `isinstance`
faithfully, so this error is visible in the semantics.
-/

/-- Runtime types of the Python values the module manipulates.  `boolT` is a
subclass of `intT`, `strT` of `basestringT`, and `datetimeT` of `dateT`,
mirroring Python 2's hierarchy.  `userClass` covers user-defined classes
(such as SQLAlchemy's internal InstanceState); their base-class chains are
elided, no code path in the module depends on one. -/
inductive PyType where
  | noneType
  | listT
  | dictT
  | intT
  | boolT
  | floatT
  | strT
  | basestringT
  | dateT
  | datetimeT
  | objectT
  | userClass (name : String)
deriving DecidableEq, Repr

/-- Method-resolution chain of a type: the type itself followed by its bases,
ending at `object`.  This is what an inheritance-based `isinstance` check
walks. -/
def PyType.mro : PyType → List PyType
  | .boolT => [.boolT, .intT, .objectT]
  | .strT => [.strT, .basestringT, .objectT]
  | .datetimeT => [.datetimeT, .dateT, .objectT]
  | .objectT => [.objectT]
  | t => [t, .objectT]

/-- The Python values flowing through the converter.  Floats carry their
printed representation (no float arithmetic occurs in the module).  `obj`
is a generic instance of a class, carrying its `str()` form. -/
inductive PyValue where
  | none
  | bool (b : Bool)
  | int (n : Int)
  | float (repr : String)
  | str (s : String)
  | list (xs : List PyValue)
  | dict (entries : List (String × PyValue))
  | date (y m d : Nat)
  | datetime (y mo d h mi s : Nat)
  | obj (cls : PyType) (strForm : String)
deriving Repr

/-- Python's builtin `type(value)`: the exact runtime type. -/
def PyValue.typeOf : PyValue → PyType
  | .none => .noneType
  | .bool _ => .boolT
  | .int _ => .intT
  | .float _ => .floatT
  | .str _ => .strT
  | .list _ => .listT
  | .dict _ => .dictT
  | .date _ _ _ => .dateT
  | .datetime _ _ _ _ _ _ => .datetimeT
  | .obj cls _ => cls

/-- Zero-padding to two digits, as used by `date.isoformat`. -/
def pad2 (n : Nat) : String :=
  if n < 10 then "0" ++ toString n else toString n

/-- Zero-padding of the year to four digits. -/
def pad4 (n : Nat) : String :=
  if n < 10 then "000" ++ toString n
  else if n < 100 then "00" ++ toString n
  else if n < 1000 then "0" ++ toString n
  else toString n

/-- ISO-8601 rendering of a calendar date, `YYYY-MM-DD`
(`datetime.date.isoformat`). -/
def dateIso (y m d : Nat) : String :=
  pad4 y ++ "-" ++ pad2 m ++ "-" ++ pad2 d

/-- ISO-8601 rendering of a datetime, `YYYY-MM-DDTHH:MM:SS`
(`datetime.datetime.isoformat` with microsecond 0; the model carries
second granularity). -/
def datetimeIso (y mo d h mi s : Nat) : String :=
  dateIso y mo d ++ "T" ++ pad2 h ++ ":" ++ pad2 mi ++ ":" ++ pad2 s

mutual

/-- Python's builtin `str()` on the modelled values.  For containers this is
the repr form with string quoting elided; `convert_value` can only reach
`str()` on values outside the JSON-safe set, so the container branches are
never exercised by the module. -/
def pyStr : PyValue → String
  | .none => "None"
  | .bool b => if b then "True" else "False"
  | .int n => toString n
  | .float r => r
  | .str s => s
  | .list xs => "[" ++ String.intercalate ", " (pyStrList xs) ++ "]"
  | .dict kvs => "\x7b" ++ String.intercalate ", " (pyStrEntries kvs) ++ "\x7d"
  | .date y m d => dateIso y m d
  | .datetime y mo d h mi s =>
      dateIso y mo d ++ " " ++ pad2 h ++ ":" ++ pad2 mi ++ ":" ++ pad2 s
  | .obj _ strForm => strForm

def pyStrList : List PyValue → List String
  | [] => []
  | x :: rest => pyStr x :: pyStrList rest

def pyStrEntries : List (String × PyValue) → List String
  | [] => []
  | (k, v) :: rest => (k ++ ": " ++ pyStr v) :: pyStrEntries rest

end

/-- Runtime errors the module can raise. -/
inductive PyError where
  | typeError (msg : String)
deriving DecidableEq, Repr

/-- The classinfo argument accepted by `isinstance`: a single class, a tuple
of classes, or an invalid container such as the `set` built at line 11.
(Nested classinfo tuples are elided; the module never builds one.) -/
inductive ClassInfo where
  | cls (t : PyType)
  | classTuple (ts : List PyType)
  | classSet (ts : List PyType)

/-- Error message Python 2 raises for a non-class, non-tuple classinfo. -/
def isinstanceArgMsg : String :=
  "isinstance() arg 2 must be a class, type, or tuple of classes and types"

/-- Python's builtin `isinstance`.  Inheritance-based for a class or a tuple
of classes; any other classinfo raises `TypeError`. -/
def pyIsinstance (v : PyValue) : ClassInfo → Except PyError Bool
  | .cls t => .ok (v.typeOf.mro.contains t)
  | .classTuple ts => .ok (ts.any (fun t => v.typeOf.mro.contains t))
  | .classSet _ => .error (.typeError isinstanceArgMsg)

/-- Line 11: `JSON_SAFE_TYPES = set([type(None), list, dict, int, float,
basestring])`.  Note this is a `set`, not a tuple. -/
def JSON_SAFE_TYPES : ClassInfo :=
  .classSet [.noneType, .listT, .dictT, .intT, .floatT, .basestringT]

/-- Lookup in a Python dict modelled as an insertion-ordered association
list. -/
def dictLookup {α β : Type} [DecidableEq α] : List (α × β) → α → Option β
  | [], _ => Option.none
  | (k, v) :: rest, key => if k = key then some v else dictLookup rest key

/-- Assignment `d[k] = v` on a Python dict: replaces the value in place if
the key is present (keeping the original key object and position), appends
otherwise. -/
def dictInsert {α β : Type} [DecidableEq α] : List (α × β) → α → β → List (α × β)
  | [], k, v => [(k, v)]
  | (k0, v0) :: rest, k, v =>
      if k0 = k then (k0, v) :: rest else (k0, v0) :: dictInsert rest k v

/-- Character-level model of `re.sub` with the fixed pattern `_([a-z])` and
an uppercasing replacement: scanning left to right, an underscore directly
followed by a lowercase ASCII letter is replaced by that letter uppercased;
any other character is copied; scanning resumes after each match. -/
def camelChars : List Char → List Char
  | [] => []
  | c :: rest =>
      if c = '_' then
        match rest with
        | [] => ['_']
        | c2 :: rest2 =>
            if c2.isLower then c2.toUpper :: camelChars rest2
            else '_' :: camelChars (c2 :: rest2)
      else c :: camelChars rest

/-- Lines 78-87: `to_camelcase`, the default key transform. -/
def to_camelcase (varname : String) : String :=
  String.mk (camelChars varname.data)

/-- Model of the string method `startswith`: character-wise prefix test. -/
def pyStartsWith (s pre : String) : Bool :=
  pre.data.isPrefixOf s.data

/-- A record's instance-attribute dict, as enumerated by `vars(record)`:
attribute names with their values, in insertion order. -/
abbrev Record := List (String × PyValue)

/-- The output mapping produced by a conversion. -/
abbrev PyDict := List (String × PyValue)

/-- Lines 14-20: the `Converter` class state. -/
structure Converter where
  convert_key : String → String
  str_fallback : Bool
  type_converters : List (PyType × (PyValue → PyValue))

/-- Lines 15-20: `__init__`.  Each `none` models an absent keyword in
`settings`; the initial `type_converters` mapping is merged (dict `update`)
into an empty registry. -/
def Converter.make (keyConv : Option (String → String)) (strFb : Option Bool)
    (typeConvs : Option (List (PyType × (PyValue → PyValue)))) : Converter :=
  { convert_key := keyConv.getD to_camelcase
    str_fallback := strFb.getD true
    type_converters :=
      (typeConvs.getD []).foldl (fun acc kv => dictInsert acc kv.1 kv.2) [] }

/-- Lines 35-46: `convert_value`.  An exact-type registry hit dispatches to
the registered function; otherwise, when `str_fallback` is set, the value is
tested with `isinstance(value, JSON_SAFE_TYPES)` (which, `JSON_SAFE_TYPES`
being a set, raises `TypeError`), stringifying non-safe values; otherwise
the value passes through. -/
def Converter.convert_value (c : Converter) (value : PyValue) : Except PyError PyValue :=
  match dictLookup c.type_converters value.typeOf with
  | some conv => .ok (conv value)
  | Option.none =>
      if c.str_fallback then
        match pyIsinstance value JSON_SAFE_TYPES with
        | .error e => .error e
        | .ok safe => if safe then .ok value else .ok (.str (pyStr value))
      else .ok value

/-- Loop of lines 28-33: walk the attribute dict, skip names with the
`_sa_` prefix, and assign `result[convert_key(attr)] = convert_value(value)`
for the rest. -/
def Converter.callFrom (c : Converter) : PyDict → List (String × PyValue) → Except PyError PyDict
  | result, [] => .ok result
  | result, (attr, v) :: rest =>
      if pyStartsWith attr "_sa_" then c.callFrom result rest
      else
        match c.convert_value v with
        | .error e => .error e
        | .ok w => c.callFrom (dictInsert result (c.convert_key attr) w) rest

/-- Lines 22-33: `__call__`, converting one record to a dict. -/
def Converter.call (c : Converter) (record : Record) : Except PyError PyDict :=
  c.callFrom [] record

/-- Lines 48-50: `add_type_converter`, inserting or replacing the registry
entry for the given type. -/
def Converter.add_type_converter (c : Converter) (type0 : PyType)
    (converter : PyValue → PyValue) : Converter :=
  { c with type_converters := dictInsert c.type_converters type0 converter }

/-- `datetime.date.isoformat` as a registered converter function.  Exact-type
dispatch guarantees it is only applied to date values; the fallthrough is
unreachable through the registry. -/
def date_isoformat : PyValue → PyValue
  | .date y m d => .str (dateIso y m d)
  | v => v

/-- `datetime.datetime.isoformat` as a registered converter function. -/
def datetime_isoformat : PyValue → PyValue
  | .datetime y mo d h mi s => .str (datetimeIso y mo d h mi s)
  | v => v

/-- Lines 69-73: `default_converter()`, a converter with ISO-format date and
datetime converters and all other settings left at their defaults. -/
def default_converter : Converter :=
  Converter.make Option.none Option.none
    (some [(.dateT, date_isoformat), (.datetimeT, datetime_isoformat)])

/-- Line 75: the module-level shared default converter. -/
def DEFAULT_CONVERTER : Converter := default_converter

/-! ## Helper lemmas about Python dict assignment -/

/-- Re-assigning a key overwrites the earlier assignment: inserting `v` then
`w` at the same key leaves the dict exactly as inserting `w` alone. -/
theorem dictInsert_last_wins {α β : Type} [DecidableEq α]
    (l : List (α × β)) (k : α) (v w : β) :
    dictInsert (dictInsert l k v) k w = dictInsert l k w := by
  induction l with
  | nil => simp [dictInsert]
  | cons hd tl ih =>
      obtain ⟨k0, v0⟩ := hd
      by_cases h : k0 = k
      · simp [dictInsert, h]
      · simp [dictInsert, h, ih]

/-- Looking up a key right after assigning it yields the assigned value. -/
theorem dictLookup_insert {α β : Type} [DecidableEq α]
    (l : List (α × β)) (k : α) (v : β) :
    dictLookup (dictInsert l k v) k = some v := by
  induction l with
  | nil => simp [dictInsert, dictLookup]
  | cons hd tl ih =>
      obtain ⟨k0, v0⟩ := hd
      by_cases h : k0 = k
      · simp [dictInsert, dictLookup, h]
      · simp [dictInsert, dictLookup, h, ih]

/-! ## Claims -/

/-- The record of the spec scenario: `{user_id: 5, created_at:
date(2020,1,1), _sa_instance_state: <internal>}`. -/
def scenario_record : Record :=
  [("user_id", .int 5), ("created_at", .date 2020 1 1),
   ("_sa_instance_state", .obj (.userClass "InstanceState") "<InstanceState>")]

/-- C1: the spec scenario expects `convert(R)` to return `{"userId": 5,
"createdAt": "2020-01-01"}`; instead the code raises `TypeError`, because
converting the unregistered `int` attribute reaches
`isinstance(value, JSON_SAFE_TYPES)` with a set as second argument. -/
theorem c1_scenario_raises_type_error :
    Converter.call DEFAULT_CONVERTER scenario_record =
      .error (.typeError isinstanceArgMsg) := rfl

/-- C2: a value whose exact runtime type has a registry entry is converted by
that entry, before the JSON-safe passthrough or the string fallback is ever
consulted. -/
theorem c2_registered_type_dispatch (c : Converter) (v : PyValue)
    (f : PyValue → PyValue)
    (h : dictLookup c.type_converters v.typeOf = some f) :
    c.convert_value v = .ok (f v) := by
  simp [Converter.convert_value, h]

/-- A converter registering a custom function for `int`, a JSON-safe type. -/
def c2_int_converter : PyValue → PyValue := fun _ => .str "converted"

def c2_example_converter : Converter :=
  Converter.make Option.none Option.none (some [(.intT, c2_int_converter)])

/-- C2 witness: the `int` registration overrides the default passthrough for
the int value 5. -/
theorem c2_registered_type_dispatch_witness :
    dictLookup c2_example_converter.type_converters
        (PyValue.int 5).typeOf = some c2_int_converter ∧
    c2_example_converter.convert_value (.int 5) = .ok (.str "converted") :=
  ⟨rfl, c2_registered_type_dispatch c2_example_converter (.int 5)
    c2_int_converter rfl⟩

/-- C3: for an unregistered non-JSON-safe value (a date, with the empty
default registry) the claim expects `str_fallback=true` to yield the string
form "2020-01-01"; the code instead raises `TypeError` (set passed to
`isinstance`).  The `str_fallback=false` half does hold: the value passes
through untouched, the `isinstance` call being short-circuited away. -/
theorem c3_fallback_raises_type_error :
    Converter.convert_value (Converter.make Option.none Option.none Option.none)
        (.date 2020 1 1) = .error (.typeError isinstanceArgMsg) ∧
    Converter.convert_value (Converter.make Option.none (some false) Option.none)
        (.date 2020 1 1) = .ok (.date 2020 1 1) :=
  ⟨rfl, rfl⟩

/-- C4: for the unregistered JSON-safe value `5` the claim expects
passthrough under both fallback settings; with `str_fallback=false` it does
pass through, but with `str_fallback=true` (the default) the code raises
`TypeError` instead of reaching the passthrough. -/
theorem c4_safe_value_raises_type_error :
    Converter.convert_value (Converter.make Option.none Option.none Option.none)
        (.int 5) = .error (.typeError isinstanceArgMsg) ∧
    Converter.convert_value (Converter.make Option.none (some false) Option.none)
        (.int 5) = .ok (.int 5) :=
  ⟨rfl, rfl⟩

/-- C5: the default key transform collapses each underscore followed by a
lowercase letter into the uppercased letter and leaves all other characters
unchanged (in particular an underscore-free string is returned verbatim),
with the four concrete examples of the spec. -/
theorem c5_camelcase_transform :
    (∀ l : List Char, '_' ∉ l → camelChars l = l) ∧
    to_camelcase "user_id" = "userId" ∧
    to_camelcase "name" = "name" ∧
    to_camelcase "created_at" = "createdAt" ∧
    to_camelcase "a_b_c" = "aBC" := by
  refine ⟨?_, rfl, rfl, rfl, rfl⟩
  intro l h
  induction l with
  | nil => rfl
  | cons c rest ih =>
      have hc : c ≠ '_' := fun hcc => h (hcc ▸ List.mem_cons_self _ _)
      have hr : '_' ∉ rest := fun hm => h (List.mem_cons_of_mem _ hm)
      rw [camelChars.eq_def]
      simp [hc, ih hr]

/-- C5 witness: the underscore-free name "name" maps to itself. -/
theorem c5_camelcase_transform_witness :
    ('_' ∉ ['n', 'a', 'm', 'e']) ∧
    camelChars ['n', 'a', 'm', 'e'] = ['n', 'a', 'm', 'e'] :=
  ⟨by decide, c5_camelcase_transform.1 ['n', 'a', 'm', 'e'] (by decide)⟩

/-- C6 counterexample: the leading underscore of "_private" is NOT
preserved — it is followed by the lowercase letter p, so the pair collapses
to "P" and the output is "Private", not "_private". -/
theorem c6_leading_underscore_counterexample :
    to_camelcase "_private" ≠ "_private" := by decide

/-- C6 amended: a leading underscore is preserved only when not followed by
a lowercase letter; when it is so followed, the general collapsing rule
applies to it as to any other underscore: `to_camelcase "_private" =
"Private"`, while `"_1x"` and the first underscore of `"__ab"` survive. -/
theorem c6_leading_underscore_amended :
    to_camelcase "_private" = "Private" ∧
    to_camelcase "_1x" = "_1x" ∧
    to_camelcase "__ab" = "_Ab" :=
  ⟨rfl, rfl, rfl⟩

/-- C7: the preconfigured converter from `default_converter()` turns every
date into its ISO `YYYY-MM-DD` string and every datetime into its ISO
timestamp string, has `str_fallback` enabled and uses the camelCase key
transform. -/
theorem c7_default_converter_configuration :
    (∀ y m d : Nat,
      Converter.convert_value default_converter (.date y m d) =
        .ok (.str (dateIso y m d))) ∧
    (∀ y mo d h mi s : Nat,
      Converter.convert_value default_converter (.datetime y mo d h mi s) =
        .ok (.str (datetimeIso y mo d h mi s))) ∧
    default_converter.str_fallback = true ∧
    default_converter.convert_key = to_camelcase :=
  ⟨fun _ _ _ => rfl, fun _ _ _ _ _ _ => rfl, rfl, rfl⟩

/-- C8: registering twice for the same type keeps only the latest function
(the whole converter state equals that of a single registration of the
latest function, and the registry entry is the latest function), and a
repeated identical registration equals a single one. -/
theorem c8_add_type_converter_overwrites (c : Converter) (T : PyType)
    (f g : PyValue → PyValue) :
    (c.add_type_converter T f).add_type_converter T g =
      c.add_type_converter T g ∧
    dictLookup ((c.add_type_converter T f).add_type_converter T g).type_converters
      T = some g ∧
    (c.add_type_converter T f).add_type_converter T f =
      c.add_type_converter T f := by
  obtain ⟨ck, sf, tc⟩ := c
  refine ⟨?_, ?_, ?_⟩
  · simp [Converter.add_type_converter, dictInsert_last_wins]
  · simp [Converter.add_type_converter, dictLookup_insert]
  · simp [Converter.add_type_converter, dictInsert_last_wins]

/-- C9: conversion is deterministic — two calls of the converter on the same
record that both return a mapping return the same mapping. -/
theorem c9_call_deterministic (c : Converter) (r : Record) (m1 m2 : PyDict)
    (h1 : c.call r = .ok m1) (h2 : c.call r = .ok m2) : m1 = m2 :=
  Except.ok.inj (h1.symm.trans h2)

def c9_converter : Converter := Converter.make Option.none (some false) Option.none

def c9_record : Record := [("user_id", .int 5)]

/-- C9 witness: a concrete successful conversion, compared with itself. -/
theorem c9_call_deterministic_witness :
    Converter.call c9_converter c9_record = .ok [("userId", PyValue.int 5)] ∧
    ([("userId", PyValue.int 5)] : PyDict) = [("userId", PyValue.int 5)] :=
  ⟨rfl, c9_call_deterministic c9_converter c9_record _ _ rfl rfl⟩

/-- C10: for the unregistered bool value `True` — an instance of a strict
subclass of the JSON-safe type `int` — the claim expects passthrough under
`str_fallback=true`; the code instead raises `TypeError`, the inheritance
check never being performed because `JSON_SAFE_TYPES` is a set. -/
theorem c10_subclass_raises_type_error :
    Converter.convert_value (Converter.make Option.none Option.none Option.none)
      (.bool true) = .error (.typeError isinstanceArgMsg) := rfl
